import Mathlib

/-!
Verification of the core logic of `AutomatedWhatsApp.py` (Automated WhatsApp
Calendar Tool): the cancellation classifier `message_indicates_cancellation`,
the interval parser `extract_time_range_from_text` with its `infer_am_pm`
helper, the availability checker `check_availability`, and the polling
orchestrator `main_loop`.

External collaborators (spaCy, dateparser, the Google Calendar service,
pytesseract/pyautogui I/O) are modelled at their interfaces:
spaCy output is a `SpacyDoc` (lemmas and noun chunks), `dateparser.parse`
is modelled on exactly the token shapes this program feeds it, and the
calendar service appears as the fetch outcome supplied to each cycle.
Timestamps are minutes; since the parser forces both endpoints onto the
current calendar day and localizes both to the same fixed timezone, all
datetime comparisons in the source reduce to comparisons of these values.
-/

/- ===== Python string primitives used by the source ===== -/

/-- Python whitespace as matched by the regex class `\s` (ASCII part). -/
def isPySpace (c : Char) : Bool :=
  c = ' ' || c = '\t' || c = '\n' || c = '\r' || c = '\x0B' || c = '\x0C'

/-- Python substring containment `needle in hay` over character lists. -/
def containsSub (needle : List Char) : List Char → Bool
  | [] => needle.isEmpty
  | c :: rest => needle.isPrefixOf (c :: rest) || containsSub needle rest

/-- Python substring containment `needle in hay` on strings. -/
def strContains (needle hay : String) : Bool :=
  containsSub needle.data hay.data

/-- Numeric value of a list of decimal digit characters. -/
def digitsVal (cs : List Char) : Nat :=
  cs.foldl (fun acc c => acc * 10 + (c.toNat - '0'.toNat)) 0

/-- Model of Python `int(s)`: optional surrounding whitespace, optional
sign, then at least one decimal digit; anything else raises (here: `none`). -/
def pyInt? (s : String) : Option Int :=
  let core := (s.data.dropWhile isPySpace).reverse.dropWhile isPySpace |>.reverse
  match core with
  | [] => none
  | '+' :: ds => if ds ≠ [] ∧ ds.all Char.isDigit then some (digitsVal ds) else none
  | '-' :: ds => if ds ≠ [] ∧ ds.all Char.isDigit then some (-(digitsVal ds : Int)) else none
  | ds => if ds.all Char.isDigit then some (digitsVal ds) else none

/- ===== Cancellation classifier (message_indicates_cancellation) ===== -/

/-- Source line 77: common verbs indicating cancellation. -/
def cancel_keywords : List String := ["cancel", "skip", "drop", "remove", "postpone"]

/-- Source line 78: key words suggesting what the message is about. -/
def oh_keywords : List String := ["office hours", "oh", "ta hours", "hours"]

/-- Output of the external spaCy pipeline `nlp(text.lower())` for one
message: the lemma of each token, and the text of each noun chunk.
For the empty string spaCy produces no tokens and no noun chunks. -/
structure SpacyDoc where
  lemmas : List String
  nounChunks : List String
deriving DecidableEq

/-- Source lines 83-85: the loop over tokens setting `cancel_found` when a
lemma is in `cancel_keywords`; `acc` is the flag before the loop. -/
def cancelScan (acc : Bool) : List String → Bool
  | [] => acc
  | t :: ts => cancelScan (if t ∈ cancel_keywords then true else acc) ts

/-- Source lines 87-89: the loop over noun chunks setting `oh_found` when
any keyword occurs as a substring of the chunk text. -/
def ohScan (acc : Bool) : List String → Bool
  | [] => acc
  | c :: cs => ohScan (if oh_keywords.any (fun kw => strContains kw c) then true else acc) cs

/-- Source lines 74-91: true only if BOTH an action lemma and a topic
chunk match are found. -/
def message_indicates_cancellation (doc : SpacyDoc) : Bool :=
  let cancel_found := cancelScan false doc.lemmas
  let oh_found := ohScan false doc.nounChunks
  cancel_found && oh_found

example : message_indicates_cancellation ⟨["cancel"], ["office hours"]⟩ = true := by decide
example : message_indicates_cancellation ⟨["cancel"], ["my plans"]⟩ = false := by decide
example : message_indicates_cancellation ⟨[], []⟩ = false := by decide

/- ===== Interval parser (extract_time_range_from_text) ===== -/

/-- Model of Python `s.lower()` (ASCII range, which covers every input the
program handles). -/
def pyLower (s : String) : String :=
  String.mk (s.data.map Char.toLower)

/-- Source line 109: the check `'am' in raw.lower() or 'pm' in raw.lower()`. -/
def hasMeridiem (raw : String) : Bool :=
  strContains "am" (pyLower raw) || strContains "pm" (pyLower raw)

/-- Source lines 101-119, helper `infer_am_pm(raw, is_start)`: guess am/pm
when not given.  The hour part is `raw.split(":")[0] if ":" in raw else raw`;
a failing `int()` conversion returns `raw` unchanged (the bare `except`),
a token already carrying am/pm is left alone, a start hour in [1,11] gets
`am` appended, an end hour in [1,7] gets `pm`, everything else defaults to
`pm`. -/
def infer_am_pm (raw : String) (is_start : Bool) : String :=
  let hour_part :=
    if strContains ":" raw then String.mk (raw.data.takeWhile (fun c => c ≠ ':')) else raw
  match pyInt? hour_part with
  | none => raw
  | some hour =>
    if hasMeridiem raw then raw
    else if is_start && 1 ≤ hour && hour ≤ 11 then raw ++ "am"
    else if !is_start && 1 ≤ hour && hour ≤ 7 then raw ++ "pm"
    else raw ++ "pm"

/-- Model of the external `dateparser.parse(s, settings)` call (source lines
124-130) restricted to the token shapes `infer_am_pm` produces from the regex
captures: `H` or `H:MM` (1-2 digits each) followed by `am` or `pm`.  With
`RELATIVE_BASE` at midnight of today and `PREFER_DATES_FROM = future`, a
valid clock time resolves to that time of day today; since the caller then
overwrites year, month and day with today anyway (source lines 134-135),
only the time of day matters, returned here as minutes after midnight.
Tokens with an out-of-range hour or minute, or of any other shape, do not
resolve (`none`, standing for the library returning `None`). -/
def dateparserParse (s : String) : Option Nat :=
  let cs := (pyLower s).data
  let parseHM : List Char → Option (Nat × Nat) := fun core =>
    match core with
    | [a] => if a.isDigit then some (digitsVal [a], 0) else none
    | [a, b] => if a.isDigit && b.isDigit then some (digitsVal [a, b], 0) else none
    | [a, ':', m, n] =>
      if a.isDigit && m.isDigit && n.isDigit then some (digitsVal [a], digitsVal [m, n]) else none
    | [a, b, ':', m, n] =>
      if a.isDigit && b.isDigit && m.isDigit && n.isDigit then
        some (digitsVal [a, b], digitsVal [m, n])
      else none
    | _ => none
  let withMer : Option (Nat × Nat × Bool) :=
    match cs.reverse with
    | 'm' :: 'a' :: rest =>
      (parseHM rest.reverse).map (fun hm => (hm.1, hm.2, false))
    | 'm' :: 'p' :: rest =>
      (parseHM rest.reverse).map (fun hm => (hm.1, hm.2, true))
    | _ => none
  match withMer with
  | none => none
  | some (h, m, pm) =>
    if 1 ≤ h ∧ h ≤ 12 ∧ m ≤ 59 then
      let hour24 := if pm then (if h = 12 then 12 else h + 12) else (if h = 12 then 0 else h)
      some (hour24 * 60 + m)
    else none

example : dateparserParse "2am" = some 120 := by decide
example : dateparserParse "4pm" = some 960 := by decide
example : dateparserParse "9:30am" = some 570 := by decide
example : dateparserParse "11pm" = some 1380 := by decide
example : dateparserParse "12pm" = some 720 := by decide
example : dateparserParse "12:30pm" = some 750 := by decide
example : dateparserParse "13pm" = none := by decide

/- ===== The regex scan (source lines 97-98) =====
Pattern: `(\d{1,2}(?::\d{2})?)\s*(?:to|-)\s*(\d{1,2}(?::\d{2})?)` run with
`re.findall(pattern, text, re.IGNORECASE)`.  The matcher below follows
Python backtracking semantics on this pattern: `\d{1,2}` greedily prefers
two digits, the optional `:\d{2}` prefers being present, `\s*` is greedy
(deterministic here, since no whitespace char can start `to` or `-`), and
the alternation tries `to` before `-`. -/

/-- Alternatives for `\d{1,2}` at the head of `cs`, most-preferred first:
each entry is the captured digits and the remaining input. -/
def digitAlts : List Char → List (List Char × List Char)
  | [] => []
  | [a] => if a.isDigit then [([a], [])] else []
  | a :: b :: rest =>
    if a.isDigit && b.isDigit then [([a, b], rest), ([a], b :: rest)]
    else if a.isDigit then [([a], b :: rest)] else []

/-- Alternatives for the optional `(?::\d{2})?`, most-preferred first
(present before absent). -/
def colonAlts (cs : List Char) : List (List Char × List Char) :=
  match cs with
  | ':' :: m :: n :: rest =>
    if m.isDigit && n.isDigit then [([':', m, n], rest), ([], cs)] else [([], cs)]
  | _ => [([], cs)]

/-- Alternatives for one capture group `\d{1,2}(?::\d{2})?`, in Python
backtracking order (the later choice point backtracks first). -/
def groupAlts (cs : List Char) : List (List Char × List Char) :=
  (digitAlts cs).flatMap fun d =>
    (colonAlts d.2).map fun c => (d.1 ++ c.1, c.2)

/-- Greedy `\s*`. -/
def skipSpaces (cs : List Char) : List Char :=
  cs.dropWhile isPySpace

/-- The separator `(?:to|-)` under `re.IGNORECASE`. -/
def matchSep : List Char → Option (List Char)
  | t :: o :: rest =>
    if (t = 't' || t = 'T') && (o = 'o' || o = 'O') then some rest
    else if t = '-' then some (o :: rest) else none
  | [c] => if c = '-' then some [] else none
  | [] => none

/-- Attempt the whole pattern anchored at the current position, returning
the two captured groups and the input remaining after the match. -/
def tryMatchAt (cs : List Char) : Option (String × String × List Char) :=
  (groupAlts cs).findSome? fun g1 =>
    match matchSep (skipSpaces g1.2) with
    | none => none
    | some afterSep =>
      match (groupAlts (skipSpaces afterSep)).head? with
      | none => none
      | some g2 => some (String.mk g1.1, String.mk g2.1, g2.2)

/-- Scanning loop of `re.findall`: leftmost matches, non-overlapping,
resuming after each match.  A successful match consumes at least three
characters, so `fuel = cs.length` always suffices. -/
def findallAux : Nat → List Char → List (String × String)
  | 0, _ => []
  | fuel + 1, cs =>
    match tryMatchAt cs with
    | some (g1, g2, rest) => (g1, g2) :: findallAux fuel rest
    | none =>
      match cs with
      | [] => []
      | _ :: tail => findallAux fuel tail

/-- Source line 98: `re.findall(pattern, text, re.IGNORECASE)`. -/
def findall (text : String) : List (String × String) :=
  findallAux text.data.length text.data

example : findall "2 to 4" = [("2", "4")] := by decide
example : findall "9:30-11" = [("9:30", "11")] := by decide
example : findall "5pm to 2pm" = [] := by decide
example : findall "12:30 to 12 and 3 to 5" = [("12:30", "12"), ("3", "5")] := by decide
example : findall "no times here" = [] := by decide

/- ===== The candidate loop (source lines 100-147) ===== -/

/-- Source lines 121-135 for one matched pair: apply `infer_am_pm` to both
captures and resolve each through `dateparser.parse`; `some (s, e)` when
both endpoints resolve, with both forced onto today so that only minutes
after midnight remain. -/
def resolveCandidate (p : String × String) : Option (Nat × Nat) :=
  match dateparserParse (infer_am_pm p.1 true), dateparserParse (infer_am_pm p.2 false) with
  | some s, some e => some (s, e)
  | _, _ => none

/-- Source lines 100-147, the `for start_raw, end_raw in matches` loop: a
candidate whose endpoints do not both resolve is skipped; the first
candidate that resolves is decisive — a reversed one (`start_dt > end_dt`,
line 138) makes the whole function return `None, None`, otherwise the
localized pair is returned.  Falling off the loop returns `None, None`. -/
def processCandidates : List (String × String) → Option (Nat × Nat)
  | [] => none
  | p :: rest =>
    match resolveCandidate p with
    | some (s, e) => if s > e then none else some (s, e)
    | none => processCandidates rest

/-- Source lines 93-147: `extract_time_range_from_text(text)`.  The result
is the extracted interval as minutes after midnight of the current day,
both endpoints localized to the fixed `America/New_York` timezone; `none`
models the `None, None` return. -/
def extract_time_range_from_text (text : String) : Option (Nat × Nat) :=
  processCandidates (findall text)

example : extract_time_range_from_text "2 to 4" = some (120, 960) := by decide
example : extract_time_range_from_text "9:30-11" = some (570, 1380) := by decide
example : extract_time_range_from_text "5pm to 2pm" = none := by decide
example : extract_time_range_from_text "12 to 12" = some (720, 720) := by decide
example : extract_time_range_from_text "12:30 to 12 and 3 to 5" = none := by decide
example : extract_time_range_from_text "3 to 5" = some (180, 1020) := by decide

/- ===== Availability checker (check_availability, source lines 150-179) ===== -/

/-- Exceptions that can propagate out of a cycle: the `TypeError` Python
raises when comparing a timezone-naive with a timezone-aware datetime, and
an HTTP error raised by the Google Calendar service call (flagged when it
is an authorization failure). -/
inductive PyErr where
  | typeError
  | httpError (authFailure : Bool)
deriving DecidableEq

/-- A Python datetime as produced by `datetime.fromisoformat`: aware when
the string carries a UTC offset (every `dateTime` field Google returns, and
the candidate endpoints, which were localized before `isoformat`), naive
when it is a bare calendar date (the `date` field of an all-day event,
giving midnight with no tzinfo).  Instants are minutes on a common scale. -/
inductive PyDatetime where
  | aware (m : Int)
  | naive (m : Int)
deriving DecidableEq

/-- Python `a < b` on datetimes: comparing naive with aware raises
`TypeError`. -/
def pyLtDatetime : PyDatetime → PyDatetime → Except PyErr Bool
  | .aware a, .aware b => .ok (decide (a < b))
  | .naive a, .naive b => .ok (decide (a < b))
  | _, _ => .error .typeError

/-- The `start` or `end` dict of a returned Google Calendar event: a timed
event carries `dateTime`, an all-day event carries only `date`. -/
structure GEventTime where
  dateTime : Option Int
  date : Option Int
deriving DecidableEq

/-- One event returned by the schedule query.  The source's `end` field is
named `stop` here because `end` is reserved in Lean. -/
structure GEvent where
  start : GEventTime
  stop : GEventTime
  summary : Option String
deriving DecidableEq

/-- Source lines 162-163: `event['start'].get('dateTime', event['start'].get('date'))`
followed by `datetime.fromisoformat` on whichever string is present — a
`dateTime` string parses to an aware datetime, a bare `date` to a naive
one. -/
def evtField (t : GEventTime) : Option PyDatetime :=
  match t.dateTime with
  | some m => some (.aware m)
  | none =>
    match t.date with
    | some d => some (.naive d)
    | none => none

/-- Source line 175: `new_start < event_end and new_end > event_start`,
with Python short-circuiting — the second comparison runs only if the
first is true, and either comparison can raise. -/
def overlapTest (ns ne es ee : PyDatetime) : Except PyErr Bool := do
  let c1 ← pyLtDatetime ns ee
  if c1 then pyLtDatetime es ne else pure false

/-- Source lines 161-179: the loop over fetched events.  An event missing
a resolvable start or end is skipped; the first overlapping event makes
the function return `False` (not free); an exhausted loop returns `True`. -/
def checkAvailLoop (ns ne : PyDatetime) : List GEvent → Except PyErr Bool
  | [] => .ok true
  | ev :: rest =>
    match evtField ev.start, evtField ev.stop with
    | some es, some ee => do
      let c ← overlapTest ns ne es ee
      if c then pure false else checkAvailLoop ns ne rest
    | _, _ => checkAvailLoop ns ne rest

/-- Source lines 150-179: `check_availability(time_start, time_end)`.  The
service call `service.events().list(...).execute()` is modelled by the
supplied fetch outcome; an API failure raises there, before any event is
examined.  The candidate endpoints are aware (they are isoformat strings
of localized datetimes). -/
def check_availability (fetched : Except PyErr (List GEvent)) (ns ne : Int) :
    Except PyErr Bool := do
  let events ← fetched
  checkAvailLoop (.aware ns) (.aware ne) events

/-- Convenience constructor for a timed (aware) busy event. -/
def timedEvent (bs be : Int) : GEvent :=
  ⟨⟨some bs, none⟩, ⟨some be, none⟩, some "Busy"⟩

/-- Convenience constructor for an all-day event: only `date` fields. -/
def allDayEvent (d : Int) : GEvent :=
  ⟨⟨none, some d⟩, ⟨none, some (d + 1440)⟩, some "All day"⟩

example : check_availability (.ok [timedEvent 900 930]) 840 960 = .ok false := rfl
example : check_availability (.ok [timedEvent 960 1020]) 840 960 = .ok true := rfl
example : check_availability (.ok [allDayEvent 0]) 840 960 = .error .typeError := rfl

/- ===== Orchestrator (main_loop, source lines 194-213) ===== -/

/-- Externally visible actions a cycle can perform. -/
inductive OutAction where
  | send (msg : String)
  | createEvent (s e : Nat)
deriving DecidableEq

/-- How a run of `main_loop` ends: `done` is the `break` after a secured
shift, `crashed` is an uncaught exception killing the process, and
`exhausted` means the model ran out of supplied cycles with the loop still
going. -/
inductive RunEnd where
  | done
  | crashed (e : PyErr)
  | exhausted
deriving DecidableEq

/-- The environment of one polling cycle: the OCR text `read_whatsapp`
returned (empty on capture failure), the spaCy document `nlp(text.lower())`
of that text, and the outcome of the Google Calendar fetch were this cycle
to query it. -/
structure CycleInput where
  text : String
  doc : SpacyDoc
  fetch : Except PyErr (List GEvent)

/-- The reply typed into WhatsApp on a successful claim (source line 205). -/
def replyMessage : String := "I\x27m free, I can take over!"

/-- Source lines 194-213: `main_loop()`, one recursive step per `while True`
iteration, consuming one `CycleInput` per cycle.  A cycle whose message does
not indicate cancellation, or whose time range cannot be extracted, or that
finds a conflict, performs no action and loops; a `check_availability` that
raises crashes the whole process (there is no try/except in the source); a
free slot sends the reply, creates the calendar event, and breaks. -/
def main_loop : List CycleInput → List OutAction × RunEnd
  | [] => ([], .exhausted)
  | c :: rest =>
    if message_indicates_cancellation c.doc then
      match extract_time_range_from_text c.text with
      | some (s, e) =>
        match check_availability c.fetch (s : Int) (e : Int) with
        | .error err => ([], .crashed err)
        | .ok true => ([.send replyMessage, .createEvent s e], .done)
        | .ok false => main_loop rest
      | none => main_loop rest
    else main_loop rest

/-- A cycle whose message passes the classifier and parses to 2am-4pm. -/
def freeCycle : CycleInput :=
  ⟨"2 to 4", ⟨["cancel"], ["office hours"]⟩, .ok []⟩

/-- The same message, but the schedule fetch raises a non-authorization
HTTP error. -/
def fetchFailCycle : CycleInput :=
  ⟨"2 to 4", ⟨["cancel"], ["office hours"]⟩, .error (.httpError false)⟩

example : main_loop [freeCycle] =
    ([.send replyMessage, .createEvent 120 960], .done) := by decide
example : main_loop [fetchFailCycle, freeCycle] =
    ([], .crashed (.httpError false)) := by decide

/- ===== Helper lemmas ===== -/

/-- The token loop computes: flag before the loop, or some lemma is a
cancel keyword. -/
theorem cancelScan_eq (ts : List String) :
    ∀ acc, cancelScan acc ts = (acc || ts.any (fun t => decide (t ∈ cancel_keywords))) := by
  induction ts with
  | nil => intro acc; simp [cancelScan]
  | cons t ts ih =>
    intro acc
    simp only [cancelScan, List.any_cons]
    rw [ih]
    by_cases h : t ∈ cancel_keywords <;> simp [h, Bool.or_assoc]

/-- The chunk loop computes: flag before the loop, or some chunk contains
one of the topic keywords as a substring. -/
theorem ohScan_eq (cs : List String) :
    ∀ acc, ohScan acc cs = (acc || cs.any (fun c => oh_keywords.any (fun kw => strContains kw c))) := by
  induction cs with
  | nil => intro acc; simp [ohScan]
  | cons c cs ih =>
    intro acc
    simp only [ohScan, List.any_cons]
    rw [ih]
    by_cases h : oh_keywords.any (fun kw => strContains kw c) = true <;> simp [h, Bool.or_assoc]

/-- Characterization of the classifier as the conjunction of the two
concept-set matches. -/
theorem classifier_characterization (d : SpacyDoc) :
    message_indicates_cancellation d = true ↔
      ((∃ l ∈ d.lemmas, l ∈ cancel_keywords) ∧
       (∃ ch ∈ d.nounChunks, ∃ kw ∈ oh_keywords, strContains kw ch = true)) := by
  unfold message_indicates_cancellation
  rw [cancelScan_eq, ohScan_eq]
  simp [List.any_eq_true]

/-- Every interval the candidate loop returns has `start ≤ end` (the loop
returns the resolved pair only after the `start_dt > end_dt` rejection). -/
theorem processCandidates_le (l : List (String × String)) :
    ∀ s e : Nat, processCandidates l = some (s, e) → s ≤ e := by
  induction l with
  | nil => intro s e h; simp [processCandidates] at h
  | cons p rest ih =>
    intro s e h
    simp only [processCandidates] at h
    cases hr : resolveCandidate p with
    | none => rw [hr] at h; exact ih s e h
    | some pr =>
      obtain ⟨a, b⟩ := pr
      rw [hr] at h
      by_cases hab : a > b
      · simp [hab] at h
      · simp only [hab, if_false] at h
        cases h
        omega

/- ===== Claim theorems ===== -/

/-- C1 counterexample: the spec golden cases do not hold on the code.
For `"2 to 4"` the parser does not return 14:00-16:00 (840-960 minutes),
and for `"9:30-11"` it does not return 09:30-11:00 (570-660 minutes). -/
theorem C1_counterexample :
    extract_time_range_from_text "2 to 4" ≠ some (840, 960) ∧
    extract_time_range_from_text "9:30-11" ≠ some (570, 660) := by decide

/-- C1 (amended): `infer_am_pm` marks a start hour in [1,11] as AM and an
end hour outside [1,7] as PM, so `"2 to 4"` resolves to 02:00-16:00
(2am to 4pm) of the current day and `"9:30-11"` resolves to 09:30-23:00
(9:30am to 11pm). -/
theorem C1_amended_golden_cases :
    extract_time_range_from_text "2 to 4" = some (120, 960) ∧
    extract_time_range_from_text "9:30-11" = some (570, 1380) := by decide

/-- C2: for the input `"5pm to 2pm"` the parser returns no interval, and a
token that already carries an explicit AM/PM marker is returned by
`infer_am_pm` unchanged, never overridden by the inference heuristic. -/
theorem C2_marker_kept_and_reversed_rejected :
    extract_time_range_from_text "5pm to 2pm" = none ∧
    ∀ (raw : String) (b : Bool), hasMeridiem raw = true → infer_am_pm raw b = raw := by
  constructor
  · decide
  · intro raw b h
    unfold infer_am_pm
    split <;> simp [h] <;> split <;> rfl

/-- C2 witness: the theorem applied to the token `"5pm"`. -/
theorem C2_witness :
    hasMeridiem "5pm" = true ∧ infer_am_pm "5pm" false = "5pm" :=
  ⟨by decide, C2_marker_kept_and_reversed_rejected.2 "5pm" false (by decide)⟩

/-- C3 counterexample: the parser does not enforce `start < end` strictly
and does not reject equal endpoints: `"12 to 12"` resolves to the
degenerate interval 12:00-12:00 instead of `none` (the source line 138
rejects only `start_dt > end_dt`). -/
theorem C3_counterexample :
    extract_time_range_from_text "12 to 12" = some (720, 720) := by decide

/-- C3 (amended): every interval the parser returns satisfies
`start ≤ end`; a candidate resolving with `start > end` is rejected as
`none`, never swapped or repaired, but equal endpoints are returned as a
degenerate interval. -/
theorem C3_amended_start_le_end (text : String) (s e : Nat)
    (h : extract_time_range_from_text text = some (s, e)) : s ≤ e :=
  processCandidates_le (findall text) s e h

/-- C3 witness: the amended theorem applied to `"2 to 4"`. -/
theorem C3_witness : (120 : Nat) ≤ 960 :=
  C3_amended_start_le_end "2 to 4" 120 960 (by decide)

/-- C4 counterexample: the first candidate that parses into a valid,
non-reversed interval is NOT always the one returned.  In
`"12:30 to 12 and 3 to 5"` the candidate `("3", "5")` resolves to the
valid interval 03:00-17:00, yet the parser returns `none`, because the
earlier candidate `("12:30", "12")` resolves reversed and the loop then
returns `None, None` instead of skipping to the next candidate. -/
theorem C4_counterexample :
    findall "12:30 to 12 and 3 to 5" = [("12:30", "12"), ("3", "5")] ∧
    resolveCandidate ("3", "5") = some (180, 1020) ∧
    extract_time_range_from_text "12:30 to 12 and 3 to 5" = none := by decide

/-- C4 (amended): candidates are evaluated in order of appearance;
candidates whose endpoints fail to resolve are skipped; the FIRST candidate
whose endpoints both resolve decides the whole parse — it is returned when
not reversed and aborts the parse with `none` when reversed — and later
candidates are never evaluated after it. -/
theorem C4_amended_first_resolving_decides (pre : List (String × String))
    (c : String × String) (rest : List (String × String)) (s e : Nat)
    (hpre : ∀ p ∈ pre, resolveCandidate p = none)
    (hc : resolveCandidate c = some (s, e)) :
    processCandidates (pre ++ c :: rest) = if s > e then none else some (s, e) := by
  induction pre with
  | nil => simp [processCandidates, hc]
  | cons p ps ih =>
    have hp : resolveCandidate p = none := hpre p (by simp)
    simp only [List.cons_append, processCandidates, hp]
    exact ih (fun q hq => hpre q (by simp [hq]))

/-- C4 witness: the amended theorem applied with one unresolvable candidate
before `("2", "4")` and one never-inspected candidate after it. -/
theorem C4_witness :
    processCandidates ([("13", "14")] ++ ("2", "4") :: [("9", "10")]) =
      if 120 > 960 then none else some (120, 960) :=
  C4_amended_first_resolving_decides [("13", "14")] ("2", "4") [("9", "10")] 120 960
    (by decide) (by decide)

/-- C5: the cancellation classifier returns true exactly when both an
action lemma from the cancel set and a topic match (a noun chunk containing
one of the office-hours keywords) are present, and it returns false on the
empty document that spaCy produces for empty or garbage input. -/
theorem C5_classifier_conjunction :
    (∀ d : SpacyDoc, message_indicates_cancellation d = true ↔
      ((∃ l ∈ d.lemmas, l ∈ cancel_keywords) ∧
       (∃ ch ∈ d.nounChunks, ∃ kw ∈ oh_keywords, strContains kw ch = true))) ∧
    message_indicates_cancellation ⟨[], []⟩ = false :=
  ⟨classifier_characterization, by decide⟩

/-- C5 witness: the characterization instantiated on a concrete document
containing both concept matches. -/
theorem C5_witness :
    message_indicates_cancellation ⟨["cancel"], ["office hours"]⟩ = true :=
  (C5_classifier_conjunction.1 ⟨["cancel"], ["office hours"]⟩).mpr
    ⟨⟨"cancel", by decide, by decide⟩, ⟨"office hours", by decide, "office hours", by decide, by decide⟩⟩

/-- C6 counterexample: a document for a text such as
"remove the hours of operation sign", whose only shift-related content is
the bare word "hours" inside an unrelated noun phrase, still triggers the
classifier: the keyword set itself contains the bare token "hours" and
matching is substring containment over chunk text. -/
theorem C6_counterexample :
    message_indicates_cancellation
      ⟨["remove", "the", "hour", "of", "operation", "sign"],
       ["the hours of operation sign"]⟩ = true := by decide

/-- C6 (amended): topic matching is substring containment of the keywords
in noun-chunk text, and since `oh_keywords` contains the bare token
"hours", ANY noun chunk containing "hours" produces a topic match: such a
text does trigger a claim attempt whenever an action lemma is present. -/
theorem C6_amended_bare_hours_matches (d : SpacyDoc) (ch : String)
    (hch : ch ∈ d.nounChunks) (hsub : strContains "hours" ch = true)
    (l : String) (hl : l ∈ d.lemmas) (hlk : l ∈ cancel_keywords) :
    message_indicates_cancellation d = true :=
  (classifier_characterization d).mpr
    ⟨⟨l, hl, hlk⟩, ⟨ch, hch, "hours", by decide, hsub⟩⟩

/-- C6 witness: the amended theorem applied to a document with the action
lemma "cancel" and the unrelated noun phrase "happy hours". -/
theorem C6_witness :
    message_indicates_cancellation ⟨["cancel"], ["happy hours"]⟩ = true :=
  C6_amended_bare_hours_matches ⟨["cancel"], ["happy hours"]⟩ "happy hours"
    (by decide) (by decide) "cancel" (by decide) (by decide)

/-- Reduction of the `do` bind on a successful `Except` value. -/
theorem exceptBind_ok {ε α β : Type} (a : α) (f : α → Except ε β) :
    (do let x ← (Except.ok a : Except ε α); f x) = f a := rfl

/-- Reduction of the `do` bind on a failed `Except` value. -/
theorem exceptBind_err {ε α β : Type} (e : ε) (f : α → Except ε β) :
    (do let x ← (Except.error e : Except ε α); f x) = Except.error e := rfl

/-- `pure` in the `Except` monad is `Except.ok`. -/
theorem exceptPure_eq {ε α : Type} (a : α) : (pure a : Except ε α) = Except.ok a := rfl

/-- C7: against a single timed busy interval, the availability check
reports a conflict (returns `ok false`) exactly when
`candidate.start < busy.end` and `candidate.end > busy.start`; in
particular the candidate 14:00-16:00 conflicts with the contained busy
interval 15:00-15:30 but is FREE against the touching busy interval
16:00-17:00. -/
theorem C7_overlap_halfopen :
    (∀ (ns ne bs be : Int) (lbl : Option String),
      check_availability (.ok [⟨⟨some bs, none⟩, ⟨some be, none⟩, lbl⟩]) ns ne = .ok false ↔
        ns < be ∧ ne > bs) ∧
    check_availability (.ok [timedEvent 900 930]) 840 960 = .ok false ∧
    check_availability (.ok [timedEvent 960 1020]) 840 960 = .ok true := by
  refine ⟨?_, rfl, rfl⟩
  intro ns ne bs be lbl
  simp only [check_availability, checkAvailLoop, evtField, overlapTest, pyLtDatetime,
    exceptBind_ok, exceptBind_err, exceptPure_eq]
  by_cases h1 : ns < be <;> by_cases h2 : bs < ne <;>
    simp [h1, h2, exceptBind_ok, exceptBind_err, exceptPure_eq]

/-- C7 witness: the overlap characterization instantiated on the contained
busy interval. -/
theorem C7_witness :
    check_availability (.ok [⟨⟨some 900, none⟩, ⟨some 930, none⟩, some "Busy"⟩]) 840 960 =
      .ok false :=
  (C7_overlap_halfopen.1 840 960 900 930 (some "Busy")).mpr (by constructor <;> decide)

/-- C8 counterexample: a non-authorization schedule fetch failure does NOT
keep the loop alive.  With the failing fetch in the first cycle the run
crashes with no reply and no busy entry, never reaching the second cycle —
although that second cycle, run on its own, would have claimed the slot. -/
theorem C8_counterexample :
    main_loop [fetchFailCycle, freeCycle] = ([], .crashed (.httpError false)) ∧
    main_loop [freeCycle] = ([.send replyMessage, .createEvent 120 960], .done) := by
  constructor <;> decide

/-- C8 (amended): when the schedule snapshot fetch fails in a cycle that
reached the availability check, the exception propagates uncaught: no
reply is sent, no busy entry is created, the loop does not continue, and
the run terminates whether or not the failure is an authorization
problem. -/
theorem C8_amended_fetch_failure_crashes (c : CycleInput) (rest : List CycleInput)
    (s e : Nat) (err : PyErr)
    (hcls : message_indicates_cancellation c.doc = true)
    (hext : extract_time_range_from_text c.text = some (s, e))
    (hf : c.fetch = .error err) :
    main_loop (c :: rest) = ([], .crashed err) := by
  have hca : check_availability (.error err) (s : Int) (e : Int) = .error err := rfl
  simp [main_loop, hcls, hext, hf, hca]

/-- C8 witness: the amended theorem applied to the concrete failing cycle. -/
theorem C8_witness :
    main_loop [fetchFailCycle] = ([], .crashed (.httpError false)) :=
  C8_amended_fetch_failure_crashes fetchFailCycle [] 120 960 (.httpError false)
    (by decide) (by decide) rfl

/-- C9: in any run of the orchestrator, either some cycle reaches a FREE
decision — and then the run performs exactly one reply send followed by
exactly one busy-entry creation and terminates with `done` — or no claim
actions are performed at all; there is never a second claim after the
first success. -/
theorem C9_at_most_one_claim (inputs : List CycleInput) :
    (∃ s e, main_loop inputs = ([.send replyMessage, .createEvent s e], .done)) ∨
    ((main_loop inputs).1 = [] ∧ (main_loop inputs).2 ≠ .done) := by
  induction inputs with
  | nil => right; simp [main_loop]
  | cons c rest ih =>
    by_cases hc : message_indicates_cancellation c.doc = true
    · cases hext : extract_time_range_from_text c.text with
      | none =>
        have hstep : main_loop (c :: rest) = main_loop rest := by
          simp [main_loop, hc, hext]
        rw [hstep]; exact ih
      | some pr =>
        obtain ⟨s, e⟩ := pr
        cases hca : check_availability c.fetch (s : Int) (e : Int) with
        | error err =>
          right
          have hstep : main_loop (c :: rest) = ([], .crashed err) := by
            simp [main_loop, hc, hext, hca]
          rw [hstep]
          exact ⟨rfl, by simp⟩
        | ok b =>
          cases b with
          | true =>
            left
            exact ⟨s, e, by simp [main_loop, hc, hext, hca]⟩
          | false =>
            have hstep : main_loop (c :: rest) = main_loop rest := by
              simp [main_loop, hc, hext, hca]
            rw [hstep]; exact ih
    · have hstep : main_loop (c :: rest) = main_loop rest := by
        simp [main_loop, hc]
      rw [hstep]; exact ih

/-- C10: the availability check is not total over the documented
busy-interval space: an all-day event (a `date` field only, no `dateTime`)
is parsed into a timezone-naive datetime, and comparing it with the
timezone-aware candidate endpoint raises `TypeError` instead of the entry
being skipped as non-conflicting. -/
theorem C10_allday_event_raises :
    evtField (allDayEvent 0).start = some (.naive 0) ∧
    check_availability (.ok [allDayEvent 0]) 840 960 = .error .typeError :=
  ⟨rfl, rfl⟩
